import Mathlib

/-!
# Verification of the Lumina-SMS student-ledger core

A shallow embedding of the core logic of `src/app.py` (a Flask multi-tenant
student/coaching-fee tracker) together with proofs about it.

Modelling conventions:
* Calendar dates are modelled by their proleptic-Gregorian ordinal
  (days since 0001-01-00), exactly as CPython's `datetime.date.toordinal`;
  `date + timedelta(days = n)` is ordinal addition by `n`, and date
  comparison is ordinal comparison.  We keep ordinals in `Int`.
* `float` fields (GPA, fee) are modelled by `ℚ`; SQL `AVG` is sum/count.
* A persisted table is a `List` of rows in insertion order; SQLAlchemy
  `filter_by` is `List.filter`, `query.get(id)` is first match on the
  primary key, `order_by(gpa.desc()).first()` is the first row of maximal
  GPA (stable descending sort).
* WTForms semantics are reproduced, including Python truthiness:
  `DataRequired` fails on an empty/whitespace string, on the float `0.0`
  and on an absent date, while any present date object is truthy.
* The external `Email()` validator (the `email_validator` package) is an
  out-of-scope collaborator; `validateStudentForm` takes it as a
  parameter `emailOk`.
* `werkzeug` password hashing/checking is likewise passed in as
  parameters (`hash`, `check`).
-/

namespace Lumina

/-! ## Calendar dates (CPython `datetime.date` ordinals) -/

/-- Test whether `y` is a Gregorian leap year (CPython `_is_leap`). -/
def isLeapYear (y : Nat) : Bool :=
  (y % 4 == 0 && y % 100 != 0) || y % 400 == 0

/-- Length of month `m` (1–12) in year `y` (CPython `_days_in_month`). -/
def daysInMonth (y m : Nat) : Nat :=
  if m == 2 then (if isLeapYear y then 29 else 28)
  else if m == 4 || m == 6 || m == 9 || m == 11 then 30
  else 31

/-- Days in year `y` before the first of month `m` (CPython `_days_before_month`). -/
def daysBeforeMonth (y m : Nat) : Nat :=
  match m with
  | 0 => 0
  | k + 1 => if k == 0 then 0 else daysBeforeMonth y k + daysInMonth y k

/-- Proleptic-Gregorian ordinal of the date `y-m-d`, day 1 being 0001-01-01
(CPython `_ymd2ord`: `date(y,m,d).toordinal()`). -/
def toordinal (y m d : Nat) : Nat :=
  365 * (y - 1) + (y - 1) / 4 - (y - 1) / 100 + (y - 1) / 400
    + daysBeforeMonth y m + d

/-- A calendar date as its CPython ordinal, as stored in a `db.Column(db.Date)`. -/
def ymd (y m d : Nat) : Int := (toordinal y m d : Int)

/-! ## Data model (`class User`, `class Student`) -/

/-- Row of the `user` table. -/
structure User where
  id : Nat
  username : String
  password_hash : String
deriving DecidableEq, Repr

/-- Row of the `student` table.  `last_payment_date` is nullable
(`db.Column(db.Date, nullable=True)`); `user_id` is the owning user's key. -/
structure Student where
  id : Nat
  name : String
  roll_no : String
  email : String
  course : String
  gpa : ℚ
  start_date : Int
  fee_amount : ℚ
  last_payment_date : Option Int
  user_id : Nat
deriving DecidableEq, Repr

/-- Property `Student.next_due_date`: `if not self.last_payment_date: return
self.start_date + timedelta(days=30)` else `self.last_payment_date +
timedelta(days=30)` (a `None` date is falsy, a date object is truthy). -/
def Student.next_due_date (s : Student) : Int :=
  match s.last_payment_date with
  | none => s.start_date + 30
  | some d => d + 30

/-- Property `Student.is_overdue`: `datetime.now().date() > self.next_due_date`,
with the current calendar date passed explicitly. -/
def Student.is_overdue (today : Int) (s : Student) : Bool :=
  decide (s.next_due_date < today)

/-- The anchor date of §3 of the spec: `last_payment_date` when present,
else `start_date`. -/
def anchor (s : Student) : Int :=
  s.last_payment_date.getD s.start_date

/-! ## WTForms validators -/

/-- Python `str.strip()`: drop leading and trailing whitespace. -/
def pyStrip (s : String) : String :=
  ⟨((s.data.dropWhile Char.isWhitespace).reverse.dropWhile Char.isWhitespace).reverse⟩

/-- Validator `DataRequired` on a `StringField`: fails when the data is falsy
(empty) or consists only of whitespace (`not field.data.strip()`). -/
def dataRequiredStr (s : String) : Bool :=
  !(s == "") && !(pyStrip s == "")

/-- Validator `DataRequired` on a `FloatField`: after coercion the data is a float
(or `None` on a parse failure); `not field.data` is true for `None` and
for `0.0`, so both fail. -/
def dataRequiredFloat (x : Option ℚ) : Bool :=
  match x with
  | none => false
  | some v => !(v == 0)

/-- Validator `DataRequired` on a `DateField`: `None` is falsy, any `date` object
is truthy. -/
def dataRequiredDate (d : Option Int) : Bool :=
  d.isSome

/-- Validator `NumberRange(min=lo, max=hi)`: fails when the data is `None`, below
`lo` or above `hi` (bounds themselves pass). -/
def numberRange (lo hi : ℚ) (x : Option ℚ) : Bool :=
  match x with
  | none => false
  | some v => decide (lo ≤ v) && decide (v ≤ hi)

/-- Validator `Length(min=lo, max=hi)` on a string field. -/
def lengthBetween (lo hi : Nat) (s : String) : Bool :=
  lo ≤ s.length && s.length ≤ hi

/-! ## Forms -/

/-- The data a submitted `StudentForm` carries, after WTForms coercion:
numeric and date fields are `none` when absent or unparseable. -/
structure StudentFormData where
  name : String
  roll_no : String
  email : String
  course : String
  gpa : Option ℚ
  start_date : Option Int
  fee_amount : Option ℚ
  last_payment_date : Option Int
deriving DecidableEq, Repr

/-- Validation of `StudentForm`: the conjunction of every field's validator
chain (a failing `DataRequired` stops that field's chain, but the form
is valid only when every chain passes, so the conjunction is faithful).
`emailOk` stands for the external `Email()` validator. -/
def validateStudentForm (emailOk : String → Bool) (f : StudentFormData) : Bool :=
  dataRequiredStr f.name &&
  dataRequiredStr f.roll_no &&
  (dataRequiredStr f.email && emailOk f.email) &&
  dataRequiredStr f.course &&
  (dataRequiredFloat f.gpa && numberRange 0 4 f.gpa) &&
  dataRequiredDate f.start_date &&
  dataRequiredFloat f.fee_amount &&
  dataRequiredDate f.last_payment_date

/-- Validation of `RegistrationForm`: username `DataRequired` and
`Length(min=2, max=20)`; password `DataRequired`; confirmation
`DataRequired` and `EqualTo('password')`. -/
def validateRegistrationForm (username password confirm : String) : Bool :=
  (dataRequiredStr username && lengthBetween 2 20 username) &&
  dataRequiredStr password &&
  (dataRequiredStr confirm && confirm == password)

/-- Validation of `LoginForm`: both fields `DataRequired`. -/
def validateLoginForm (username password : String) : Bool :=
  dataRequiredStr username && dataRequiredStr password

/-! ## Student-ledger operations (the routes) -/

/-- Route `student_list` (`GET /students`):
`Student.query.filter_by(user_id=current_user.id).all()`. -/
def ListStudents (db : List Student) (owner : Nat) : List Student :=
  db.filter (fun s => s.user_id == owner)

/-- Route `reminders` (`GET /reminders`): the owner-scoped list filtered by
`is_overdue`. -/
def OverdueStudents (db : List Student) (owner : Nat) (today : Int) : List Student :=
  (db.filter (fun s => s.user_id == owner)).filter (fun s => s.is_overdue today)

/-- First row of `order_by(Student.gpa.desc()).first()` over a list:
the earliest row whose GPA is maximal (descending sort is stable). -/
def topByGpa : List Student → Option Student
  | [] => none
  | s :: rest =>
    match topByGpa rest with
    | none => some s
    | some t => if t.gpa > s.gpa then some t else some s

/-- What `dashboard` passes to its template. -/
structure DashboardData where
  total : Nat
  avg : ℚ
  top : Option Student
  overdue : Nat
deriving DecidableEq, Repr

/-- Route `dashboard` (`GET /dashboard`): count, `AVG(gpa)`, top student by
GPA, and `sum(1 for s in owned if s.is_overdue)`; the three aggregates
default to `0`/`None` when the owner has no students. -/
def dashboard (db : List Student) (owner : Nat) (today : Int) : DashboardData :=
  let owned := db.filter (fun s => s.user_id == owner)
  if owned.length > 0 then
    { total := owned.length
      avg := (owned.map Student.gpa).sum / (owned.length : ℚ)
      top := topByGpa owned
      overdue := owned.countP (fun s => s.is_overdue today) }
  else
    { total := owned.length, avg := 0, top := none, overdue := 0 }

/-- Route `create_student` (`POST /create`): on a valid form, append a new
`Student` built from the form's data and owned by `current_user`; on an
invalid form nothing is persisted (`none`). `nextId` models the
autoincremented primary key. -/
def create_student (emailOk : String → Bool) (db : List Student) (owner nextId : Nat)
    (f : StudentFormData) : Option (List Student) :=
  if validateStudentForm emailOk f then
    match f.gpa, f.start_date, f.fee_amount with
    | some g, some sd, some fee =>
        some (db ++ [{ id := nextId, name := f.name, roll_no := f.roll_no,
                       email := f.email, course := f.course, gpa := g,
                       start_date := sd, fee_amount := fee,
                       last_payment_date := f.last_payment_date,
                       user_id := owner }])
    | _, _, _ => none
  else none

/-- Error page / flash shown by `delete_student` when it does not delete. -/
inductive DeleteError where
  | NotFound
  | Unauthorized
deriving DecidableEq, Repr

/-- Removal of the row `db.session.delete(student)` deletes: the first
row carrying the primary key `i`. -/
def removeFirstById : List Student → Nat → List Student
  | [], _ => []
  | s :: rest, i => if s.id == i then rest else s :: removeFirstById rest i

/-- Route `delete_student` (`GET /delete/<id>`): `get_or_404` aborts with 404
when no row has key `i`; otherwise if `student.author != current_user`
flash Unauthorized and change nothing; otherwise delete the row. -/
def delete_student (db : List Student) (owner i : Nat) :
    List Student × Option DeleteError :=
  match db.find? (fun s => s.id == i) with
  | none => (db, some .NotFound)
  | some s =>
    if s.user_id == owner then (removeFirstById db i, none)
    else (db, some .Unauthorized)

/-! ## Auth operations -/

/-- Outcome of `register`. -/
inductive RegisterResult where
  | Success
  | DuplicateUsername
  | ValidationError
deriving DecidableEq, Repr

/-- Route `register` (`POST /register`): on a valid form, if the username is
taken flash and change nothing, else persist a new user with the hashed
password.  `hash` stands for `generate_password_hash`; `nextId` models
the autoincremented primary key. -/
def register (hash : String → String) (users : List User) (nextId : Nat)
    (username password confirm : String) : List User × RegisterResult :=
  if validateRegistrationForm username password confirm then
    if (users.find? (fun u => u.username == username)).isSome then
      (users, .DuplicateUsername)
    else
      (users ++ [{ id := nextId, username := username,
                   password_hash := hash password }], .Success)
  else (users, .ValidationError)

/-- Outcome of `login`: the session user on success, the flashed message
on failure, or re-rendered field errors on an invalid form. -/
inductive LoginResult where
  | Success (userId : Nat)
  | Failure (message : String)
  | FormInvalid
deriving DecidableEq, Repr

/-- Route `login` (`POST /login`): look the user up by username; succeed when
one exists and `check_password` passes; otherwise flash
`'Login Unsuccessful.'`.  `check password hash` stands for werkzeug's
`check_password_hash(hash, password)`. -/
def login (check : String → String → Bool) (users : List User)
    (username password : String) : LoginResult :=
  if validateLoginForm username password then
    match users.find? (fun u => u.username == username) with
    | none => .Failure "Login Unsuccessful."
    | some u =>
      if check password u.password_hash then .Success u.id
      else .Failure "Login Unsuccessful."
  else .FormInvalid

/-! ## Sample data (concrete rows and form submissions for witnesses) -/

/-- A fully valid `StudentForm` submission. -/
def validForm : StudentFormData where
  name := "Bob"
  roll_no := "R1"
  email := "bob@example.com"
  course := "Math"
  gpa := some 3
  start_date := some (ymd 2024 1 1)
  fee_amount := some 100
  last_payment_date := some (ymd 2024 2 15)

/-- A student of user 1 who last paid on 2024-02-15. -/
def paidStudent : Student where
  id := 5
  name := "Bob"
  roll_no := "R1"
  email := "bob@example.com"
  course := "Math"
  gpa := 3
  start_date := ymd 2024 1 1
  fee_amount := 100
  last_payment_date := some (ymd 2024 2 15)
  user_id := 1

/-- A student of user 2 who never paid. -/
def otherStudent : Student where
  id := 6
  name := "Carol"
  roll_no := "R2"
  email := "carol@example.com"
  course := "Physics"
  gpa := 4
  start_date := ymd 2024 1 1
  fee_amount := 100
  last_payment_date := none
  user_id := 2

/-- A second student of user 1. -/
def secondStudent : Student where
  id := 7
  name := "Dave"
  roll_no := "R3"
  email := "dave@example.com"
  course := "CS"
  gpa := 4
  start_date := ymd 2024 1 1
  fee_amount := 100
  last_payment_date := none
  user_id := 1

/-- A three-row student table over users 1 and 2. -/
def sampleDb : List Student := [paidStudent, otherStudent, secondStudent]

/-- A one-row user table. -/
def sampleUsers : List User := [{ id := 1, username := "alice", password_hash := "H" }]

/-! ## Helper lemmas -/

/-- Function `topByGpa` returns `none` exactly on the empty list, and otherwise a
member of maximal GPA (the earliest such member, matching a stable
descending sort). -/
theorem topByGpa_spec (l : List Student) :
    (l = [] ∧ topByGpa l = none)
    ∨ ∃ t, topByGpa l = some t ∧ t ∈ l ∧ ∀ s ∈ l, s.gpa ≤ t.gpa := by
  induction l with
  | nil => exact Or.inl ⟨rfl, rfl⟩
  | cons s rest ih =>
    right
    rcases ih with ⟨hrest, hnone⟩ | ⟨t, ht, htmem, hmax⟩
    · refine ⟨s, ?_, List.mem_cons_self .., ?_⟩
      · simp [topByGpa, hnone]
      · intro x hx
        rcases List.mem_cons.mp hx with h | h
        · exact h ▸ le_refl _
        · simp [hrest] at h
    · by_cases hgt : t.gpa > s.gpa
      · refine ⟨t, ?_, List.mem_cons_of_mem _ htmem, ?_⟩
        · simp [topByGpa, ht, hgt]
        · intro x hx
          rcases List.mem_cons.mp hx with h | h
          · exact h ▸ le_of_lt hgt
          · exact hmax x h
      · refine ⟨s, ?_, List.mem_cons_self .., ?_⟩
        · simp [topByGpa, ht, hgt]
        · intro x hx
          rcases List.mem_cons.mp hx with h | h
          · exact h ▸ le_refl _
          · exact le_trans (hmax x h) (not_lt.mp hgt)

/-- Removing the row with key `i` keeps every member whose key differs. -/
theorem mem_removeFirstById {s : Student} {l : List Student} {i : Nat}
    (hs : s ∈ l) (hne : s.id ≠ i) : s ∈ removeFirstById l i := by
  induction l with
  | nil => simp at hs
  | cons a rest ih =>
    unfold removeFirstById
    rcases List.mem_cons.mp hs with h | h
    · subst h
      simp [hne]
    · by_cases ha : a.id = i
      · simp [ha]
        exact h
      · simpa [ha] using Or.inr (ih h)

/-- When primary keys are distinct, no row of key `i` survives
`removeFirstById l i` when a row was removed, and in every case the
members of the result of key `i` already sat twice in `l`; with `Nodup`
keys the result simply has no row of key `i` beyond the unremoved ones.
Precisely: under `Nodup` keys, every member of `removeFirstById l i`
either has key `≠ i` or `l` never contained key `i` at all — and if some
member of `l` has key `i`, the result contains no row of key `i`. -/
theorem removeFirstById_id_ne {l : List Student} {i : Nat}
    (hnd : (l.map Student.id).Nodup) {w : Student} (hw : w ∈ l) (hwi : w.id = i) :
    ∀ t ∈ removeFirstById l i, t.id ≠ i := by
  induction l with
  | nil => simp at hw
  | cons a rest ih =>
    rw [List.map_cons, List.nodup_cons] at hnd
    by_cases ha : a.id = i
    · intro t ht
      unfold removeFirstById at ht
      simp [ha] at ht
      intro hti
      exact hnd.1 (ha ▸ hti ▸ List.mem_map_of_mem Student.id ht)
    · rcases List.mem_cons.mp hw with h | h
      · exact absurd (h ▸ hwi) ha
      · intro t ht
        unfold removeFirstById at ht
        simp [ha] at ht
        rcases ht with h1 | h1
        · exact h1 ▸ ha
        · exact ih hnd.2 h t h1

/-- If `find?` by key returns `t`, every other member of the list
survives `removeFirstById`. -/
theorem mem_removeFirstById_of_find {l : List Student} {i : Nat} {t s : Student}
    (hf : l.find? (fun x => x.id == i) = some t) (hs : s ∈ l) (hne : s ≠ t) :
    s ∈ removeFirstById l i := by
  induction l with
  | nil => simp at hs
  | cons a rest ih =>
    by_cases ha : a.id = i
    · rw [List.find?_cons_of_pos _ (by simp [ha])] at hf
      have hat : a = t := by injection hf
      unfold removeFirstById
      simp [ha]
      rcases List.mem_cons.mp hs with h | h
      · exact absurd (h.trans hat) hne
      · exact h
    · rw [List.find?_cons_of_neg _ (by simp [ha])] at hf
      unfold removeFirstById
      rcases List.mem_cons.mp hs with h | h
      · simp [ha, h]
      · simpa [ha] using Or.inr (ih hf h)

/-- When primary keys are distinct, `find?` by key finds exactly the
member carrying that key. -/
theorem find_by_id_of_mem {l : List Student} {i : Nat} {s : Student}
    (hnd : (l.map Student.id).Nodup) (hs : s ∈ l) (hsi : s.id = i) :
    l.find? (fun x => x.id == i) = some s := by
  induction l with
  | nil => simp at hs
  | cons a rest ih =>
    rw [List.map_cons, List.nodup_cons] at hnd
    by_cases ha : a.id = i
    · rw [List.find?_cons_of_pos _ (by simp [ha])]
      rcases List.mem_cons.mp hs with h | h
      · exact congrArg some h.symm
      · exact absurd (ha ▸ hsi ▸ List.mem_map_of_mem Student.id h) hnd.1
    · rw [List.find?_cons_of_neg _ (by simp [ha])]
      rcases List.mem_cons.mp hs with h | h
      · exact absurd (h ▸ hsi) ha
      · exact ih hnd.2 h

/-- If `find?` misses on `l₁`, finding over `l₁ ++ l₂` is finding over `l₂`. -/
theorem find_append_of_none {p : User → Bool} {l₁ l₂ : List User}
    (h : l₁.find? p = none) : (l₁ ++ l₂).find? p = l₂.find? p := by
  induction l₁ with
  | nil => rfl
  | cons a rest ih =>
    by_cases ha : p a
    · rw [List.find?_cons_of_pos _ ha] at h
      exact absurd h (by simp)
    · rw [List.find?_cons_of_neg _ ha] at h
      rw [List.cons_append, List.find?_cons_of_neg _ ha]
      exact ih h

/-! ## Claims -/

/-- C2: for every student and every current date, `is_overdue` holds iff
today is strictly after `anchor + 30` days, the anchor being
`last_payment_date` when present and `start_date` otherwise. -/
theorem is_overdue_iff_anchor_plus_30 (s : Student) (today : Int) :
    s.is_overdue today = true ↔ anchor s + 30 < today := by
  cases h : s.last_payment_date with
  | none => simp [Student.is_overdue, Student.next_due_date, anchor, h]
  | some d => simp [Student.is_overdue, Student.next_due_date, anchor, h]

/-- C3 counterexample: a student who last paid on 2024-02-15 does NOT get
next_due_date 2024-03-17 — 2024 is a leap year, so 30 days after
2024-02-15 is 2024-03-16. -/
theorem scenario_due_date_counterexample :
    ¬ (paidStudent.next_due_date = ymd 2024 3 17) := by decide

/-- C3 (amended): with `last_payment_date = 2024-02-15`, `next_due_date`
is 2024-03-16, and on current date 2024-03-01 `is_overdue` is false. -/
theorem scenario_due_date (s : Student)
    (h : s.last_payment_date = some (ymd 2024 2 15)) :
    s.next_due_date = ymd 2024 3 16 ∧ s.is_overdue (ymd 2024 3 1) = false := by
  constructor
  · simp [Student.next_due_date, h]
    decide
  · simp [Student.is_overdue, Student.next_due_date, h]
    decide

/-- C3 witness: the amended scenario evaluated on a concrete student. -/
theorem scenario_due_date_witness :
    paidStudent.next_due_date = ymd 2024 3 16
    ∧ paidStudent.is_overdue (ymd 2024 3 1) = false :=
  scenario_due_date paidStudent (by decide)

/-- C10: for every owner and current date, the dashboard's overdue count
equals the length of the reminders (overdue-students) list. -/
theorem dashboard_overdue_eq_reminders_length
    (db : List Student) (owner : Nat) (today : Int) :
    (dashboard db owner today).overdue = (OverdueStudents db owner today).length := by
  unfold dashboard OverdueStudents
  by_cases h : (db.filter (fun s => s.user_id == owner)).length > 0
  · simp only [h, if_pos]
    exact List.countP_eq_length_filter _ _
  · simp only [h, if_neg]
    have : db.filter (fun s => s.user_id == owner) = [] :=
      List.length_eq_zero.mp (Nat.eq_zero_of_not_pos h)
    simp [this]

/-- C1: multi-tenant isolation — a student owned by `U` is listed for `U`
and never for `V ≠ U`; the reminders list and dashboard top student for
`V` only carry students owned by `V`; the dashboard total and overdue
count for `U` aggregate exactly the owner-scoped list; and a delete
issued by `V` never removes a student owned by `U`. -/
theorem multi_tenant_isolation (db : List Student) (U V : Nat) (s : Student)
    (today : Int) (i : Nat)
    (hs : s ∈ db) (hU : s.user_id = U) (hV : V ≠ U) :
    s ∈ ListStudents db U
    ∧ s ∉ ListStudents db V
    ∧ (OverdueStudents db V today).all (fun t => t.user_id == V) = true
    ∧ ((dashboard db V today).top.all (fun t => t.user_id == V)) = true
    ∧ (dashboard db U today).total = (ListStudents db U).length
    ∧ (dashboard db U today).overdue
        = (ListStudents db U).countP (fun t => t.is_overdue today)
    ∧ s ∈ (delete_student db V i).1 := by
  refine ⟨?_, ?_, ?_, ?_, ?_, ?_, ?_⟩
  · exact List.mem_filter.mpr ⟨hs, by simp [hU]⟩
  · intro h
    have := (List.mem_filter.mp h).2
    simp at this
    exact hV (this ▸ hU ▸ rfl)
  · refine List.all_eq_true.mpr ?_
    intro t ht
    have := (List.mem_filter.mp (List.mem_of_mem_filter ht)).2
    simpa using this
  · unfold dashboard
    by_cases h : (db.filter (fun t => t.user_id == V)).length > 0
    · simp only [h, if_pos]
      rcases topByGpa_spec (db.filter (fun t => t.user_id == V)) with ⟨he, _⟩ | ⟨t, ht, htm, _⟩
      · rw [he] at h
        simp at h
      · have := (List.mem_filter.mp htm).2
        simp [ht, Option.all]
        simpa using this
    · simp [h, Option.all]
  · unfold dashboard ListStudents
    dsimp only
    split <;> rfl
  · unfold dashboard ListStudents
    by_cases h : (db.filter (fun t => t.user_id == U)).length > 0
    · simp only [h, if_pos]
    · simp only [h, if_neg, not_false_iff]
      have he : db.filter (fun t => t.user_id == U) = [] :=
        List.length_eq_zero.mp (Nat.eq_zero_of_not_pos h)
      simp [he]
  · unfold delete_student
    cases hf : db.find? (fun x => x.id == i) with
    | none => exact hs
    | some t =>
      by_cases htv : t.user_id = V
      · simp only [htv, beq_self_eq_true, if_pos]
        have hne : s ≠ t := by
          intro h
          exact hV (htv ▸ h ▸ hU)
        exact mem_removeFirstById_of_find hf hs hne
      · have hb : (t.user_id == V) = false := by simp [htv]
        simp only [hb, Bool.false_eq_true, if_false]
        exact hs

/-- C1 witness: isolation evaluated on the three-row sample table. -/
theorem multi_tenant_isolation_witness :
    paidStudent ∈ ListStudents sampleDb 1
    ∧ paidStudent ∉ ListStudents sampleDb 2
    ∧ (OverdueStudents sampleDb 2 (ymd 2024 3 17)).all (fun t => t.user_id == 2) = true
    ∧ ((dashboard sampleDb 2 (ymd 2024 3 17)).top.all (fun t => t.user_id == 2)) = true
    ∧ (dashboard sampleDb 1 (ymd 2024 3 17)).total = (ListStudents sampleDb 1).length
    ∧ (dashboard sampleDb 1 (ymd 2024 3 17)).overdue
        = (ListStudents sampleDb 1).countP (fun t => t.is_overdue (ymd 2024 3 17))
    ∧ paidStudent ∈ (delete_student sampleDb 2 5).1 :=
  multi_tenant_isolation sampleDb 1 2 paidStudent (ymd 2024 3 17) 5
    (by decide) (by decide) (by decide)

/-- C6: `delete_student` fails with NotFound when no row has the key;
fails with Unauthorized, leaving the table unchanged, when the row's
owner differs; and otherwise deletes exactly the addressed row. -/
theorem delete_student_spec (db : List Student) (owner i : Nat)
    (hnd : (db.map Student.id).Nodup) :
    ((∀ s ∈ db, s.id ≠ i) → delete_student db owner i = (db, some .NotFound))
    ∧ (∀ s, s ∈ db → s.id = i → s.user_id ≠ owner →
        delete_student db owner i = (db, some .Unauthorized)
        ∧ s ∈ (delete_student db owner i).1)
    ∧ (∀ s, s ∈ db → s.id = i → s.user_id = owner →
        (delete_student db owner i).2 = none
        ∧ s ∉ (delete_student db owner i).1
        ∧ ∀ t ∈ db, t.id ≠ i → t ∈ (delete_student db owner i).1) := by
  refine ⟨?_, ?_, ?_⟩
  · intro h
    have hf : db.find? (fun x => x.id == i) = none :=
      List.find?_eq_none.mpr (fun x hx => by simpa using h x hx)
    simp [delete_student, hf]
  · intro s hs hsi hso
    have hf := find_by_id_of_mem hnd hs hsi
    constructor
    · simp [delete_student, hf, hso]
    · simp [delete_student, hf, hso]
      exact hs
  · intro s hs hsi hso
    have hf := find_by_id_of_mem hnd hs hsi
    refine ⟨?_, ?_, ?_⟩
    · simp [delete_student, hf, hso]
    · simp [delete_student, hf, hso]
      intro hmem
      exact removeFirstById_id_ne hnd hs hsi s hmem hsi
    · intro t ht htne
      simp [delete_student, hf, hso]
      exact mem_removeFirstById ht htne

/-- C6 witness: the Unauthorized branch evaluated on the sample table —
user 2 cannot delete user 1's student, and the row survives. -/
theorem delete_student_spec_witness :
    delete_student sampleDb 2 5 = (sampleDb, some .Unauthorized)
    ∧ paidStudent ∈ (delete_student sampleDb 2 5).1 :=
  (delete_student_spec sampleDb 2 5 (by decide)).2.1 paidStudent
    (by decide) (by decide) (by decide)

/-- C7: the dashboard total is the length of the owner-scoped list; the
average GPA is the arithmetic mean of the listed GPAs (0 when the list
is empty); the top student is a listed student of maximal GPA (none when
empty); and the overdue figure counts the listed students currently
overdue. -/
theorem dashboard_summary_spec (db : List Student) (owner : Nat) (today : Int) :
    (dashboard db owner today).total = (ListStudents db owner).length
    ∧ (ListStudents db owner = [] →
        (dashboard db owner today).avg = 0 ∧ (dashboard db owner today).top = none)
    ∧ (ListStudents db owner ≠ [] →
        (dashboard db owner today).avg
          = ((ListStudents db owner).map Student.gpa).sum
              / ((ListStudents db owner).length : ℚ)
        ∧ ∃ t, (dashboard db owner today).top = some t ∧ t ∈ ListStudents db owner
            ∧ ∀ s ∈ ListStudents db owner, s.gpa ≤ t.gpa)
    ∧ (dashboard db owner today).overdue
        = ((ListStudents db owner).filter (fun s => s.is_overdue today)).length := by
  refine ⟨?_, ?_, ?_, ?_⟩
  · unfold dashboard ListStudents
    dsimp only
    split <;> rfl
  · intro he
    unfold dashboard
    unfold ListStudents at he
    simp [he]
  · intro hne
    unfold ListStudents at hne
    have hpos : (db.filter (fun s => s.user_id == owner)).length > 0 :=
      Nat.pos_of_ne_zero (fun h => hne (List.length_eq_zero.mp h))
    constructor
    · unfold dashboard ListStudents
      simp only [hpos, if_pos]
    · rcases topByGpa_spec (db.filter (fun s => s.user_id == owner)) with ⟨he, _⟩ | ⟨t, ht, htm, hmax⟩
      · exact absurd he hne
      · refine ⟨t, ?_, htm, hmax⟩
        unfold dashboard
        simp only [hpos, if_pos]
        exact ht
  · unfold dashboard ListStudents
    by_cases h : (db.filter (fun s => s.user_id == owner)).length > 0
    · simp only [h, if_pos]
      exact List.countP_eq_length_filter _ _
    · simp only [h, if_neg, not_false_iff]
      have he : db.filter (fun s => s.user_id == owner) = [] :=
        List.length_eq_zero.mp (Nat.eq_zero_of_not_pos h)
      simp [he]

/-- C7 witness: the dashboard of user 1 over the sample table, with the
nonemptiness hypothesis discharged concretely. -/
theorem dashboard_summary_spec_witness :
    (dashboard sampleDb 1 (ymd 2024 3 1)).total = (ListStudents sampleDb 1).length
    ∧ (dashboard sampleDb 1 (ymd 2024 3 1)).avg
        = ((ListStudents sampleDb 1).map Student.gpa).sum
            / ((ListStudents sampleDb 1).length : ℚ)
    ∧ (dashboard sampleDb 1 (ymd 2024 3 1)).overdue
        = ((ListStudents sampleDb 1).filter (fun s => s.is_overdue (ymd 2024 3 1))).length := by
  have h := dashboard_summary_spec sampleDb 1 (ymd 2024 3 1)
  exact ⟨h.1, (h.2.2.1 (by decide)).1, h.2.2.2⟩

/-- C4 (code evaluated at the boundary): with every other field valid,
the student form rejects GPA 4.1 and GPA -0.1 and accepts GPA 4.0, but —
against the claim — it also rejects GPA 0.0, because `DataRequired`
treats the float `0.0` as missing data before `NumberRange` ever runs;
a creation attempt with GPA 0.0 therefore persists nothing. -/
theorem gpa_boundary_evaluation :
    validateStudentForm (fun _ => true) { validForm with gpa := some (mkRat 41 10) } = false
    ∧ validateStudentForm (fun _ => true) { validForm with gpa := some (mkRat (-1) 10) } = false
    ∧ validateStudentForm (fun _ => true) { validForm with gpa := some 4 } = true
    ∧ validateStudentForm (fun _ => true) { validForm with gpa := some 0 } = false
    ∧ create_student (fun _ => true) [] 1 8 { validForm with gpa := some 0 } = none
    ∧ numberRange 0 4 (some 0) = true := by
  decide

/-- C5 (code evaluated at the failing input): a submission identical to a
valid one except that `last_payment_date` is absent is rejected by the
form (`DataRequired` on the date field), so `create_student` persists
nothing — although the column is nullable and `next_due_date` computes
from `start_date` for a student without a payment. -/
theorem last_payment_required_evaluation :
    create_student (fun _ => true) [] 1 8 { validForm with last_payment_date := none } = none
    ∧ validateStudentForm (fun _ => true) { validForm with last_payment_date := none } = false
    ∧ validateStudentForm (fun _ => true) validForm = true
    ∧ ({ paidStudent with last_payment_date := none } : Student).next_due_date
        = paidStudent.start_date + 30 := by
  decide

/-- C8: registering a username that is already taken fails with the
duplicate-username flash and leaves the user table unchanged: after a
first successful registration of `uname`, a second registration of the
same `uname` with any valid form data returns the table produced by the
first call untouched. -/
theorem register_duplicate_username (hash : String → String) (users : List User)
    (n1 n2 : Nat) (uname p1 p2 : String)
    (h1 : validateRegistrationForm uname p1 p1 = true)
    (h2 : validateRegistrationForm uname p2 p2 = true)
    (hfree : ∀ u ∈ users, u.username ≠ uname) :
    (register hash users n1 uname p1 p1).2 = .Success
    ∧ register hash (register hash users n1 uname p1 p1).1 n2 uname p2 p2
        = ((register hash users n1 uname p1 p1).1, .DuplicateUsername) := by
  have hf : users.find? (fun u => u.username == uname) = none :=
    List.find?_eq_none.mpr (fun u hu => by simpa using hfree u hu)
  have hr1 : register hash users n1 uname p1 p1
      = (users ++ [{ id := n1, username := uname, password_hash := hash p1 }], .Success) := by
    simp [register, h1, hf]
  have hf2 : (users ++ [({ id := n1, username := uname, password_hash := hash p1 } : User)]).find?
      (fun u => u.username == uname)
      = some ({ id := n1, username := uname, password_hash := hash p1 } : User) := by
    rw [find_append_of_none hf]
    simp
  constructor
  · rw [hr1]
  · rw [hr1]
    simp [register, h2, hf2]

/-- C8 witness: the alice/pw1 then alice/pw2 scenario on an empty table. -/
theorem register_duplicate_username_witness :
    (register id ([] : List User) 1 "alice" "pw1" "pw1").2 = RegisterResult.Success
    ∧ register id (register id ([] : List User) 1 "alice" "pw1" "pw1").1 2 "alice" "pw2" "pw2"
        = ((register id ([] : List User) 1 "alice" "pw1" "pw1").1,
           RegisterResult.DuplicateUsername) :=
  register_duplicate_username id [] 1 2 "alice" "pw1" "pw2"
    (by decide) (by decide) (by simp)

/-- C9: a login failure does not reveal whether the username exists — a
login with an unknown username and a login with a known username but a
password failing the hash check report the identical error. -/
theorem login_failure_indistinguishable (check : String → String → Bool)
    (users : List User) (u1 p1 u2 p2 : String) (w : User)
    (hv1 : validateLoginForm u1 p1 = true)
    (hv2 : validateLoginForm u2 p2 = true)
    (h1 : users.find? (fun u => u.username == u1) = none)
    (h2 : users.find? (fun u => u.username == u2) = some w)
    (hw : check p2 w.password_hash = false) :
    login check users u1 p1 = .Failure "Login Unsuccessful."
    ∧ login check users u2 p2 = .Failure "Login Unsuccessful."
    ∧ login check users u1 p1 = login check users u2 p2 := by
  have e1 : login check users u1 p1 = .Failure "Login Unsuccessful." := by
    simp [login, hv1, h1]
  have e2 : login check users u2 p2 = .Failure "Login Unsuccessful." := by
    simp [login, hv2, h2, hw]
  exact ⟨e1, e2, e1.trans e2.symm⟩

/-- C9 witness: on the one-user table, logging in as the unknown "bob"
and as "alice" with a wrong password yield the same error result. -/
theorem login_failure_indistinguishable_witness :
    login (fun p h => p == h) sampleUsers "bob" "x" = .Failure "Login Unsuccessful."
    ∧ login (fun p h => p == h) sampleUsers "alice" "wrong" = .Failure "Login Unsuccessful."
    ∧ login (fun p h => p == h) sampleUsers "bob" "x"
        = login (fun p h => p == h) sampleUsers "alice" "wrong" :=
  login_failure_indistinguishable (fun p h => p == h) sampleUsers "bob" "x" "alice" "wrong"
    { id := 1, username := "alice", password_hash := "H" }
    (by decide) (by decide) (by decide) (by decide) (by decide)

end Lumina
